import Mathlib

/-!
Shallow embedding of the a9s terminal AWS browser (Go) for verification.

The embedding covers:
* the per-resource-kind data fetchers (`internal/resources`): S3 buckets,
  EC2 instances, Lambda functions, SQS queues, Billing — their `Fetch`,
  `Columns`, `Rows` and `GetID` methods;
* the resource `Registry` (association-list model of the Go map);
* the AWS `Client` wrapper (`internal/client`): `SetRegion` / `SetProfile`;
* the browser controller (`internal/view/app.go`): resource selection,
  refresh dispatch, fetch-completion callbacks, auto-refresh ticker
  lifecycle, region switching and the EC2 confirm/execute protocol.

Go in-place mutation is modelled by explicit state passing: a Go method
`func (x *T) M(...) error` becomes a Lean function `T → ... → T × Option String`
returning the updated receiver and the error value.  Remote AWS calls are
modelled by passing their results (or a result function) as parameters.
Optional pointers (`*string` etc.) become `Option`; `time.Time` values are
carried as the already-formatted strings the Go code produces from them.
-/

namespace A9s

/-- Column from `resources.Column`: a table column definition. -/
structure Column where
  name : String
  width : Nat
deriving DecidableEq, Repr

/-- Go helper `stringValue`: safely dereferences a `*string` (nil becomes ""). -/
def stringValue : Option String → String
  | none => ""
  | some s => s

/-! ## S3 buckets (`S3Buckets` resource) -/

/-- `S3Bucket`: one parsed S3 bucket row. -/
structure S3Bucket where
  name : String
  creationDate : String
  region : String
deriving DecidableEq, Repr

/-- `S3Buckets`: the S3 resource with its internal row cache. -/
structure S3Buckets where
  buckets : List S3Bucket
deriving DecidableEq, Repr

/-- One entry of the AWS `ListBuckets` response as consumed by `S3Buckets.Fetch`:
`Name` is a `*string`; `CreationDate` is an optional timestamp, carried here as
the string the Go code formats it to. -/
structure AwsBucket where
  name : Option String
  creationDate : Option String
deriving DecidableEq, Repr

/-- The S3 call surface used by `S3Buckets.Fetch`: the `ListBuckets` result and,
per bucket name pointer, the `GetBucketLocation` result (the
`LocationConstraint` string on success). -/
structure S3Api where
  listBuckets : Except String (List AwsBucket)
  getBucketLocation : Option String → Except String String

/-- Body of the per-bucket loop of `S3Buckets.Fetch`: builds one `S3Bucket`
from a `ListBuckets` entry plus its `GetBucketLocation` lookup.  A failed
location lookup leaves `Region` at its zero value; an empty location
constraint means "us-east-1". -/
def S3Buckets.parseBucket (api : S3Api) (bucket : AwsBucket) : S3Bucket :=
  let b : S3Bucket := { name := stringValue bucket.name, creationDate := "", region := "" }
  let b := match bucket.creationDate with
    | some d => { b with creationDate := d }
    | none => b
  match api.getBucketLocation bucket.name with
  | .ok loc => if loc = "" then { b with region := "us-east-1" } else { b with region := loc }
  | .error _ => b

/-- `S3Buckets.Fetch`: first clears the row cache (`s.buckets = make([]S3Bucket, 0)`),
then lists buckets; on a `ListBuckets` error it returns with the cache already
cleared; on success it fills the cache from the response. -/
def S3Buckets.fetch (s : S3Buckets) (api : S3Api) : S3Buckets × Option String :=
  let s := { s with buckets := [] }
  match api.listBuckets with
  | .error e => (s, some ("failed to list S3 buckets: " ++ e))
  | .ok out => ({ s with buckets := out.map (S3Buckets.parseBucket api) }, none)

/-- `S3Buckets.Columns`. -/
def S3Buckets.columns : List Column :=
  [⟨"Name", 50⟩, ⟨"Creation Date", 25⟩, ⟨"Region", 20⟩]

/-- `S3Buckets.Rows`: one row of three cells per cached bucket. -/
def S3Buckets.rows (s : S3Buckets) : List (List String) :=
  s.buckets.map (fun b => [b.name, b.creationDate, b.region])

/-- `S3Buckets.GetID`: the bucket name at `index`, or "" when out of range. -/
def S3Buckets.getID (s : S3Buckets) (index : Int) : String :=
  if 0 ≤ index ∧ index < (s.buckets.length : Int) then
    match s.buckets.get? index.toNat with
    | some b => b.name
    | none => ""
  else ""

/-! ## EC2 instances (`EC2Instances` resource) -/

/-- `EC2Instance`: one parsed EC2 instance row. -/
structure EC2Instance where
  instanceID : String
  name : String
  state : String
  typ : String
  privateIP : String
  publicIP : String
  availabilityZone : String
  launchTime : String
deriving DecidableEq, Repr

/-- `EC2Instances`: the EC2 resource with its internal row cache. -/
structure EC2Instances where
  instances : List EC2Instance
deriving DecidableEq, Repr

/-- An EC2 tag (`Key` and `Value` are `*string`). -/
structure AwsTag where
  key : Option String
  value : Option String
deriving DecidableEq, Repr

/-- The fields of an AWS `types.Instance` read by `parseInstance`.
`State.Name` and `InstanceType` are string-typed enums; `Placement` is an
optional struct whose `AvailabilityZone` is itself a `*string`; `LaunchTime`
is carried as the formatted string. -/
structure AwsInstance where
  instanceId : Option String
  stateName : String
  instanceType : String
  privateIpAddress : Option String
  publicIpAddress : Option String
  tags : List AwsTag
  placementAz : Option (Option String)
  launchTime : Option String
deriving DecidableEq, Repr

/-- An AWS reservation: the `Instances` list inside one
`DescribeInstances` reservation. -/
structure AwsReservation where
  instances : List AwsInstance
deriving DecidableEq, Repr

/-- The tag loop in `parseInstance`: the value of the first tag whose key is
"Name", or "" (the zero value) when there is none. -/
def findNameTag : List AwsTag → String
  | [] => ""
  | t :: ts => if stringValue t.key = "Name" then stringValue t.value else findNameTag ts

/-- `EC2Instances.parseInstance`: converts an AWS instance to the row model
(the Go parameter is named `instance`, a keyword here). -/
def EC2Instances.parseInstance (inst : AwsInstance) : EC2Instance :=
  { instanceID := stringValue inst.instanceId
    name := findNameTag inst.tags
    state := inst.stateName
    typ := inst.instanceType
    privateIP := stringValue inst.privateIpAddress
    publicIP := stringValue inst.publicIpAddress
    availabilityZone := match inst.placementAz with
      | some az => stringValue az
      | none => ""
    launchTime := stringValue inst.launchTime }

/-- The paginator loop of `EC2Instances.Fetch`: drains pages in order, appending
the parsed instances of every reservation; the first page error stops the loop
and is returned, leaving the rows appended so far in the cache. -/
def EC2Instances.fetchLoop (e : EC2Instances) :
    List (Except String (List AwsReservation)) → EC2Instances × Option String
  | [] => (e, none)
  | .error msg :: _ => (e, some ("failed to describe EC2 instances: " ++ msg))
  | .ok output :: rest =>
      EC2Instances.fetchLoop
        { e with instances :=
            e.instances ++ (output.flatMap (·.instances)).map EC2Instances.parseInstance }
        rest

/-- `EC2Instances.Fetch`: first clears the row cache
(`e.instances = make([]EC2Instance, 0)`), then drains the
`DescribeInstances` paginator. -/
def EC2Instances.fetch (e : EC2Instances)
    (pages : List (Except String (List AwsReservation))) : EC2Instances × Option String :=
  EC2Instances.fetchLoop { e with instances := [] } pages

/-- `EC2Instances.Columns`. -/
def EC2Instances.columns : List Column :=
  [⟨"ID", 20⟩, ⟨"Name", 30⟩, ⟨"State", 12⟩, ⟨"Type", 15⟩,
   ⟨"Private IP", 16⟩, ⟨"Public IP", 16⟩, ⟨"AZ", 15⟩, ⟨"Launch Time", 20⟩]

/-- `EC2Instances.Rows`: one row of eight cells per cached instance. -/
def EC2Instances.rows (e : EC2Instances) : List (List String) :=
  e.instances.map (fun inst =>
    [inst.instanceID, inst.name, inst.state, inst.typ,
     inst.privateIP, inst.publicIP, inst.availabilityZone, inst.launchTime])

/-- `EC2Instances.GetID`: the instance ID at `index`, or "" when out of range. -/
def EC2Instances.getID (e : EC2Instances) (index : Int) : String :=
  if 0 ≤ index ∧ index < (e.instances.length : Int) then
    match e.instances.get? index.toNat with
    | some inst => inst.instanceID
    | none => ""
  else ""

/-! ## Lambda functions (`LambdaFunctions` resource) -/

/-- `LambdaFunction`: one parsed Lambda function row (the `Description` field
is fetched but not displayed). -/
structure LambdaFunction where
  functionName : String
  runtime : String
  handler : String
  memorySize : String
  timeout : String
  lastModified : String
  description : String
deriving DecidableEq, Repr

/-- `LambdaFunctions`: the Lambda resource with its internal row cache. -/
structure LambdaFunctions where
  functions : List LambdaFunction
deriving DecidableEq, Repr

/-- `LambdaFunctions.Columns`. -/
def LambdaFunctions.columns : List Column :=
  [⟨"Function Name", 40⟩, ⟨"Runtime", 15⟩, ⟨"Handler", 30⟩,
   ⟨"Memory (MB)", 12⟩, ⟨"Timeout (s)", 12⟩, ⟨"Last Modified", 25⟩]

/-- `LambdaFunctions.Rows`: one row of six cells per cached function. -/
def LambdaFunctions.rows (l : LambdaFunctions) : List (List String) :=
  l.functions.map (fun fn =>
    [fn.functionName, fn.runtime, fn.handler, fn.memorySize, fn.timeout, fn.lastModified])

/-- `LambdaFunctions.GetID`: the function name at `index`, or "" when out of range. -/
def LambdaFunctions.getID (l : LambdaFunctions) (index : Int) : String :=
  if 0 ≤ index ∧ index < (l.functions.length : Int) then
    match l.functions.get? index.toNat with
    | some fn => fn.functionName
    | none => ""
  else ""

/-! ## SQS queues (`SQSQueues` resource) -/

/-- `SQSQueue`: one parsed SQS queue row. -/
structure SQSQueue where
  url : String
  name : String
  approximateMessages : String
  approximateMessagesNotVisible : String
  messageRetentionPeriod : String
deriving DecidableEq, Repr

/-- `SQSQueues`: the SQS resource with its internal row cache. -/
structure SQSQueues where
  queues : List SQSQueue
deriving DecidableEq, Repr

/-- `SQSQueues.Columns`. -/
def SQSQueues.columns : List Column :=
  [⟨"Queue Name", 40⟩, ⟨"Messages", 12⟩, ⟨"In Flight", 12⟩,
   ⟨"Retention (s)", 15⟩, ⟨"URL", 60⟩]

/-- `SQSQueues.Rows`: one row of five cells per cached queue. -/
def SQSQueues.rows (s : SQSQueues) : List (List String) :=
  s.queues.map (fun queue =>
    [queue.name, queue.approximateMessages, queue.approximateMessagesNotVisible,
     queue.messageRetentionPeriod, queue.url])

/-- `SQSQueues.GetID`: the queue name at `index`, or "" when out of range. -/
def SQSQueues.getID (s : SQSQueues) (index : Int) : String :=
  if 0 ≤ index ∧ index < (s.queues.length : Int) then
    match s.queues.get? index.toNat with
    | some queue => queue.name
    | none => ""
  else ""

/-! ## Billing (`Billing` resource)

The Go `Billing` entries carry `float64` amounts that `Rows` formats with
`fmt.Sprintf`; the embedding carries the formatted strings (the claims about
this resource concern only row shape, not the numeric formatting). -/

/-- `BillingEntry`: one billing line; `amountText` is the "%.2f %s" rendering
of `Amount`/`Currency`, `percentageText` the "%.1f%%" rendering of
`Percentage`, and `bar` the `renderBar` output for that percentage. -/
structure BillingEntry where
  service : String
  amountText : String
  percentageText : String
  bar : String
deriving DecidableEq, Repr

/-- `Billing`: the billing resource with its internal caches; `totalText` is
the "%.2f %s" rendering of `totalAmount`/`currency`. -/
structure Billing where
  entries : List BillingEntry
  totalText : String
  periodStart : String
  periodEnd : String
deriving DecidableEq, Repr

/-- `Billing.Columns`. -/
def Billing.columns : List Column :=
  [⟨"Service", 40⟩, ⟨"Cost", 15⟩, ⟨"%", 8⟩, ⟨"Distribution", 30⟩]

/-- `Billing.Rows`: a synthetic TOTAL row, a separator row, then one row of
four cells per cached entry. -/
def Billing.rows (b : Billing) : List (List String) :=
  ["📊 TOTAL (" ++ b.periodStart ++ " to " ++ b.periodEnd ++ ")",
    b.totalText, "100%", "████████████████████████████████"] ::
  ["────────────────────────────────────────", "───────────────", "────────",
    "──────────────────────────────"] ::
  b.entries.map (fun entry => [entry.service, entry.amountText, entry.percentageText, entry.bar])

/-- `Billing.GetID`: indices 0 and 1 are the synthetic header rows and have no
identifier; from index 2 on, the service name of the backing entry. -/
def Billing.getID (b : Billing) (index : Int) : String :=
  if index < 2 then ""
  else
    let actualIndex := index - 2
    if 0 ≤ actualIndex ∧ actualIndex < (b.entries.length : Int) then
      match b.entries.get? actualIndex.toNat with
      | some entry => entry.service
      | none => ""
    else ""

/-! ## Registry -/

/-- `resources.Registry`: the Go `map[string]Resource` modelled as an
association list with last-write-wins semantics (`Register` prepends, `Get`
takes the first match).  The value type is abstract: the controller model
below uses `Nat` resource identities. -/
structure Registry (α : Type) where
  entries : List (String × α)

/-- `Registry.Register`: adds a resource under `key`, overriding any
existing entry at that key. -/
def Registry.register {α : Type} (r : Registry α) (key : String) (res : α) : Registry α :=
  ⟨(key, res) :: r.entries⟩

/-- `Registry.Get`: the resource at `key`, or `none` on lookup failure. -/
def Registry.get {α : Type} (r : Registry α) (key : String) : Option α :=
  (r.entries.find? (fun p => p.1 = key)).map (·.2)

/-- `Registry.List`: all registered resource keys. -/
def Registry.list {α : Type} (r : Registry α) : List String :=
  r.entries.map (·.1)

/-! ## AWS client wrapper (`internal/client`) -/

/-- The option set that `SetRegion` / `SetProfile` pass to
`config.LoadDefaultConfig`, and — abstractly — the `aws.Config` the loader
returns (the embedding tracks only what the code itself puts in). -/
structure AwsConfig where
  regionOpt : Option String
  profileOpt : Option String
deriving DecidableEq, Repr

/-- `client.Client`: wraps the loaded `aws.Config` and the per-service SDK
clients.  All 22 service clients are built with `NewFromConfig(cfg)` from the
same config, so they are represented collectively by `svcCfg`, the config
they were derived from.  `region` and `profile` are the fields returned by
`Region()` / `Profile()`. -/
structure Client where
  cfg : AwsConfig
  svcCfg : AwsConfig
  region : String
  profile : String
deriving DecidableEq, Repr

/-- The options `SetRegion` builds: `WithRegion(region)`, plus
`WithSharedConfigProfile(c.profile)` when the profile is set and not
"default". -/
def Client.setRegionOpts (c : Client) (region : String) : AwsConfig :=
  { regionOpt := some region
    profileOpt := if c.profile ≠ "" ∧ c.profile ≠ "default" then some c.profile else none }

/-- `Client.SetRegion`: loads a fresh config with the new region (the loader's
outcome is the environment's answer `load opts`); on error it returns before
touching any field; on success it replaces the config and every per-service
client and assigns `c.region = region`, leaving `c.profile` untouched. -/
def Client.setRegion (c : Client) (region : String)
    (load : AwsConfig → Except String AwsConfig) : Client × Option String :=
  match load (c.setRegionOpts region) with
  | .error e => (c, some e)
  | .ok cfg => ({ cfg := cfg, svcCfg := cfg, region := region, profile := c.profile }, none)

/-- The options `SetProfile` builds: `WithSharedConfigProfile(profile)`, plus
`WithRegion(c.region)` when a region is already set (the existing region is
reused when loading the new configuration). -/
def Client.setProfileOpts (c : Client) (profile : String) : AwsConfig :=
  { regionOpt := if c.region ≠ "" then some c.region else none
    profileOpt := some profile }

/-- `Client.SetProfile`: loads a fresh config for the new profile; on error it
returns before touching any field; on success it replaces the config and every
per-service client and assigns `c.profile = profile`, leaving `c.region`
untouched. -/
def Client.setProfile (c : Client) (profile : String)
    (load : AwsConfig → Except String AwsConfig) : Client × Option String :=
  match load (c.setProfileOpts profile) with
  | .error e => (c, some e)
  | .ok cfg => ({ cfg := cfg, svcCfg := cfg, region := c.region, profile := profile }, none)

/-! ## Browser controller (`internal/view/app.go`)

The `App` model keeps the UI-visible state the spec claims talk about and
makes the asynchronous structure explicit:

* resources are identified by `Nat`; `caches` holds each resource's internal
  row cache (the `Rows()` data), `names` its display name and `help` its
  per-type quick-action help suffix (the type-switch on `EC2Instances` /
  `S3Buckets` in the success callback);
* `refreshResource` dispatches a background fetch goroutine: the dispatched
  task is recorded in `pending`, tagged with the resource that was current at
  dispatch, and `fetchCalls` counts every `Fetch` call handed to the provider;
* `completeFetch` is the event-loop processing of one goroutine's
  `QueueUpdateDraw` callback, with the fetch outcome (the fetched resource's
  new cache and the returned error) supplied by the environment;
* the auto-refresh ticker lifecycle is tracked by `refreshTicker` (the Go
  field, which may keep pointing at an already-stopped ticker),
  `activeTickers` (identities of tickers created and not yet stopped) and
  `nextTicker` (a fresh identity supply);
* `actionCalls` counts EC2 quick-action handler invocations dispatched by
  `executeEC2Action`. -/

/-- Controller session state (the fields of `view.App` the claims concern,
with UI plumbing such as pages, focus and the menu widgets omitted). -/
structure App where
  registry : Registry Nat
  names : Nat → String
  help : Nat → String
  caches : Nat → List (List String)
  client : Client
  current : Option Nat
  status : String
  header : String
  table : List (List String)
  autoRefresh : Bool
  refreshTicker : Option Nat
  activeTickers : List Nat
  nextTicker : Nat
  pending : List Nat
  fetchCalls : Nat
  actionCalls : Nat

/-- `App.updateStatus`: sets the status bar text (with the leading space the
Go code prepends). -/
def App.updateStatus (a : App) (text : String) : App :=
  { a with status := " " ++ text }

/-- `App.updateHeader`: rebuilds the header from the client's region and
profile (the client is always non-nil in a running session). -/
def App.updateHeader (a : App) : App :=
  { a with header :=
      "[::b]a9s[-:-:-] - AWS Resource Browser\n[gray]Region: " ++
      (if a.client.region ≠ "" then a.client.region else "not configured") ++
      " | Profile: " ++
      (if a.client.profile ≠ "" then a.client.profile else "not configured") }

/-- `App.renderTable`: clears the table and, when a resource is selected,
re-renders its cached rows (the header row is derived from `Columns()` and
not part of the data rows modelled here). -/
def App.renderTable (a : App) : App :=
  match a.current with
  | none => { a with table := [] }
  | some r => { a with table := a.caches r }

/-- The status text of the success branch of the fetch callback: auto-refresh
state, resource name, item count and the per-type key help. -/
def App.successStatus (a : App) (r : Nat) : String :=
  (if a.autoRefresh then "[green]auto:on" else "[gray]auto:off") ++
  " | [green]" ++ a.names r ++ ": " ++ toString (a.caches r).length ++
  " items | [white]f: refresh | a: auto | p: profile | r: region | :: menu | q: quit" ++
  a.help r

/-- `App.refreshResource`: no-op when no resource is selected; otherwise sets
the Loading status, clears the table and dispatches a background fetch
goroutine for the currently selected resource.  There is no in-flight guard:
every call with a selection dispatches a new `Fetch` call. -/
def App.refreshResource (a : App) : App :=
  match a.current with
  | none => a
  | some r =>
      let a := a.updateStatus "[yellow]Loading..."
      let a := { a with table := [] }
      { a with pending := a.pending ++ [r], fetchCalls := a.fetchCalls + 1 }

/-- `App.completeFetch`: the event loop processes the completion of the
dispatched fetch for resource `task`.  The goroutine's `Fetch` call has
mutated that resource's cache to `newCache` and returned `err`; the queued
callback then surfaces the error, or re-renders the table and status from
`a.current` — whatever is selected *now*, with no check that `task` is still
the current resource. -/
def App.completeFetch (a : App) (task : Nat) (newCache : List (List String))
    (err : Option String) : App :=
  let a := { a with caches := Function.update a.caches task newCache,
                    pending := a.pending.erase task }
  match err with
  | some e => a.updateStatus ("[red]Error: " ++ e)
  | none =>
      let a := a.renderTable
      match a.current with
      | some r => a.updateStatus (a.successStatus r)
      | none => a

/-- `App.startAutoRefresh` (under `refreshMu`): stops the existing ticker if
any — without clearing the field — then, only when auto-refresh is on and a
resource is selected, installs a fresh ticker. -/
def App.startAutoRefresh (a : App) : App :=
  let a := match a.refreshTicker with
    | some t => { a with activeTickers := a.activeTickers.erase t }
    | none => a
  if ¬a.autoRefresh ∨ a.current = none then a
  else
    { a with refreshTicker := some a.nextTicker,
             activeTickers := a.nextTicker :: a.activeTickers,
             nextTicker := a.nextTicker + 1 }

/-- `App.stopAutoRefresh` (under `refreshMu`): stops the ticker and clears
the field. -/
def App.stopAutoRefresh (a : App) : App :=
  match a.refreshTicker with
  | some t => { a with activeTickers := a.activeTickers.erase t, refreshTicker := none }
  | none => a

/-- `App.updateStatusWithAutoRefresh`: status text showing the auto-refresh
state; with a selection it shows the resource name and item count, otherwise
the given message. -/
def App.updateStatusWithAutoRefresh (a : App) (msg : String) : App :=
  let autoStatus := if a.autoRefresh then "[green]auto:on" else "[gray]auto:off"
  match a.current with
  | some r => a.updateStatus (autoStatus ++ " | " ++ a.names r ++ ": " ++
      toString (a.caches r).length ++
      " items | [white]f: refresh | a: auto | p: profile | r: region | :: menu | q: quit")
  | none => a.updateStatus (autoStatus ++ " | [white]" ++ msg)

/-- `App.toggleAutoRefresh`: flips the flag, then starts or stops the ticker
and reports the new state. -/
def App.toggleAutoRefresh (a : App) : App :=
  let a := { a with autoRefresh := !a.autoRefresh }
  if a.autoRefresh then
    (a.startAutoRefresh).updateStatusWithAutoRefresh "[green]Auto-refresh enabled"
  else
    (a.stopAutoRefresh).updateStatusWithAutoRefresh "[yellow]Auto-refresh disabled"

/-- One auto-refresh goroutine iteration: ticker `t` delivers a tick only
while it has not been stopped; the goroutine then re-checks the flag and the
selection before calling `refreshResource`. -/
def App.tickFires (a : App) (t : Nat) : App :=
  if t ∈ a.activeTickers then
    if a.autoRefresh ∧ a.current ≠ none then a.refreshResource else a
  else a

/-- `App.selectResource`: Registry lookup failure surfaces "Unknown resource"
and changes nothing else; on success the resource becomes current (the menu
bookkeeping and page switch are UI plumbing), a refresh is dispatched and the
auto-refresh ticker is (re)started. -/
def App.selectResource (a : App) (key : String) : App :=
  match a.registry.get key with
  | none => a.updateStatus ("[red]Unknown resource: " ++ key)
  | some res =>
      let a := { a with current := some res }
      (a.refreshResource).startAutoRefresh

/-- `App.switchRegion`: sets the switching status, then runs
`client.SetRegion` on a background goroutine; the queued callback surfaces a
failure without touching anything else, and on success rebuilds the header,
reports the switch and — when a resource is selected — dispatches exactly one
refresh. -/
def App.switchRegion (a : App) (region : String)
    (load : AwsConfig → Except String AwsConfig) : App :=
  let a := a.updateStatus ("[yellow]Switching to region: " ++ region ++ "...")
  match a.client.setRegion region load with
  | (c, err) =>
      let a := { a with client := c }
      match err with
      | some e => a.updateStatus ("[red]Failed to switch region: " ++ e)
      | none =>
          let a := a.updateHeader
          let a := a.updateStatus ("[green]Switched to region: " ++ region)
          match a.current with
          | some _ => a.refreshResource
          | none => a

/-- `App.executeEC2Action`: sets the progress status and dispatches the
action goroutine, which invokes the EC2 handler (`StartInstance` /
`StopInstance` / `RestartInstance`) against the provider. -/
def App.executeEC2Action (a : App) (action instanceID : String) : App :=
  let a := a.updateStatus ("[yellow]" ++ action ++ "ing instance " ++ instanceID ++ "...")
  { a with actionCalls := a.actionCalls + 1 }

/-- Outcome of the EC2 confirmation modal: `some label` when a button is
pressed (the modal's done function runs with that label), `none` when the
dialog is dismissed with Escape (the page is removed and the done function
never runs). -/
def App.confirmDone (a : App) (action instanceID : String)
    (response : Option String) : App :=
  match response with
  | some label => if label = "Yes" then a.executeEC2Action action instanceID else a
  | none => a

/-- Ticker-lifecycle invariant: at most one ticker is ever active, and an
active ticker is exactly the one held in the `refreshTicker` field (the field
may also point at an already-stopped ticker, in which case nothing is
active). -/
def App.tickerInv (a : App) : Prop :=
  a.activeTickers = [] ∨ ∃ t, a.refreshTicker = some t ∧ a.activeTickers = [t]

/-! ## Concrete states used to evaluate the theorems below -/

/-- A concrete S3 resource whose cache holds one previously fetched bucket. -/
def s3cacheBefore : S3Buckets :=
  ⟨[⟨"old-bucket", "2024-01-01 00:00:00", "us-east-1"⟩]⟩

/-- An S3 call surface whose `ListBuckets` fails. -/
def s3FailApi : S3Api :=
  ⟨.error "x", fun _ => .error "x"⟩

/-- A concrete EC2 resource state with one cached instance. -/
def ec2sample : EC2Instances :=
  ⟨[⟨"i-1", "web", "running", "t3.micro", "10.0.0.1", "", "eu-west-1a", "2024-01-01 00:00:00"⟩]⟩

/-- A concrete S3 resource state with one cached bucket. -/
def s3sample : S3Buckets :=
  ⟨[⟨"b1", "2024-01-01 00:00:00", "eu-west-1"⟩]⟩

/-- A concrete Lambda resource state with one cached function. -/
def lambdaSample : LambdaFunctions :=
  ⟨[⟨"fn1", "go1.x", "main", "128", "3", "2024", "d"⟩]⟩

/-- A concrete SQS resource state with one cached queue. -/
def sqsSample : SQSQueues :=
  ⟨[⟨"https://q/1", "q1", "0", "0", "345600"⟩]⟩

/-- A concrete Billing resource state with one cached entry. -/
def billingSample : Billing :=
  ⟨[⟨"EC2", "1.00 USD", "100.0%", "bar"⟩], "1.00 USD", "2024-01-01", "2024-02-01"⟩

/-- A concrete AWS client. -/
def clientSample : Client :=
  ⟨⟨some "us-east-1", none⟩, ⟨some "us-east-1", none⟩, "us-east-1", "default"⟩

/-- A loader that always succeeds with a fixed config. -/
def loadOkSample : AwsConfig → Except String AwsConfig :=
  fun opts => .ok opts

/-- A loader that always fails. -/
def loadErrSample : AwsConfig → Except String AwsConfig :=
  fun _ => .error "no credentials"

/-- A concrete controller state: resources 0 ("ec2") and 1 ("s3") registered,
nothing selected yet, auto-refresh on, no ticker, nothing in flight. -/
def app0 : App :=
  { registry := ⟨[("ec2", 0), ("s3", 1)]⟩
    names := fun r => if r = 0 then "EC2 Instances" else "S3 Buckets"
    help := fun _ => ""
    caches := fun r => if r = 0 then [["i-1"]] else [["old-bucket"]]
    client := clientSample
    current := none
    status := " ready"
    header := ""
    table := []
    autoRefresh := true
    refreshTicker := none
    activeTickers := []
    nextTicker := 0
    pending := []
    fetchCalls := 0
    actionCalls := 0 }

/-- Controller state after one `refreshResource` for resource 0: the fetch is
still in flight (`pending = [0]`, one fetch dispatched). -/
def appC2 : App :=
  { app0 with current := some 0, status := " [yellow]Loading...",
              pending := [0], fetchCalls := 1 }

/-- Controller state in the stale-fetch scenario: the fetch for resource 0
(A) is in flight, but the user has since selected resource 1 (B), whose own
refresh is also pending. -/
def appC3 : App :=
  { app0 with current := some 1, status := " [yellow]Loading...",
              pending := [0, 1], fetchCalls := 2 }

/-- Controller state with resource 0 selected, auto-refresh on and no ticker
running yet. -/
def appSel : App :=
  { app0 with current := some 0 }

/-- The instance rows contributed by a list of successful
`DescribeInstances` pages. -/
def parsedPages (pages : List (List AwsReservation)) : List EC2Instance :=
  (pages.flatMap (fun output => output.flatMap (·.instances))).map EC2Instances.parseInstance

/-! # Theorems -/

/-- Draining the EC2 paginator over a run of successful pages appends exactly
the rows parsed from those pages. -/
theorem fetchLoop_ok_run (l : List (Except String (List AwsReservation))) :
    ∀ (okPages : List (List AwsReservation)) (e : EC2Instances),
      EC2Instances.fetchLoop e (okPages.map Except.ok ++ l) =
        EC2Instances.fetchLoop ⟨e.instances ++ parsedPages okPages⟩ l := by
  intro okPages
  induction okPages with
  | nil => intro e; simp [parsedPages]
  | cons p ps ih =>
      intro e
      simp only [List.map_cons, List.cons_append, EC2Instances.fetchLoop, List.append_eq]
      rw [ih]
      simp [parsedPages, List.append_assoc]

/-- C1 counterexample: a failed `ListBuckets` leaves the S3 cache empty, not
equal to the non-empty cache it held before the call. -/
theorem c1_failed_fetch_counterexample :
    (S3Buckets.fetch s3cacheBefore s3FailApi).2 = some "failed to list S3 buckets: x" ∧
    (S3Buckets.fetch s3cacheBefore s3FailApi).1 ≠ s3cacheBefore := by
  constructor
  · rfl
  · decide

/-- C1 amended: a failed fetch does not leave the previous row cache
untouched — `Fetch` clears the cache before the first remote call, so after a
failed S3 `ListBuckets` the cache is empty, and after a failure on any EC2
paginator page the cache holds exactly the rows parsed from the pages
received before the error. -/
theorem c1_failed_fetch_clears_cache :
    (∀ (s : S3Buckets) (api : S3Api) (e : String), api.listBuckets = .error e →
       S3Buckets.fetch s api = (⟨[]⟩, some ("failed to list S3 buckets: " ++ e))) ∧
    (∀ (ec : EC2Instances) (okPages : List (List AwsReservation)) (msg : String)
       (rest : List (Except String (List AwsReservation))),
       EC2Instances.fetch ec (okPages.map Except.ok ++ Except.error msg :: rest) =
         (⟨parsedPages okPages⟩, some ("failed to describe EC2 instances: " ++ msg))) := by
  constructor
  · intro s api e h
    simp [S3Buckets.fetch, h]
  · intro ec okPages msg rest
    rw [EC2Instances.fetch, fetchLoop_ok_run]
    simp [EC2Instances.fetchLoop]

/-- C1 witness: the amended statement evaluated at concrete inputs. -/
theorem c1_witness :
    S3Buckets.fetch s3cacheBefore s3FailApi =
      (⟨[]⟩, some "failed to list S3 buckets: x") ∧
    EC2Instances.fetch ec2sample [Except.error "down"] =
      (⟨[]⟩, some "failed to describe EC2 instances: down") :=
  ⟨c1_failed_fetch_clears_cache.1 s3cacheBefore s3FailApi "x" rfl,
   c1_failed_fetch_clears_cache.2 ec2sample [] "down" []⟩

/-- C2 counterexample: with resource 0 selected and its fetch already in
flight (one fetch call dispatched), a further `refresh()` dispatches a second
fetch call instead of being a no-op, so two fetches — not exactly one — are
handed to the provider for the same resource. -/
theorem c2_refresh_counterexample :
    appC2.current = some 0 ∧ appC2.pending = [0] ∧ appC2.fetchCalls = 1 ∧
    (appC2.refreshResource).fetchCalls = 2 ∧
    ¬(appC2.refreshResource).fetchCalls = 1 := by
  refine ⟨rfl, rfl, rfl, rfl, by decide⟩

/-- C2 amended: `refreshResource` has no in-flight guard — it is a no-op only
when no resource is selected; with a selection every call dispatches one more
fetch for the current resource, so a second call during an in-flight fetch
dispatches a second fetch. -/
theorem c2_refresh_dispatch (a : App) :
    (a.current = none → a.refreshResource = a) ∧
    (∀ r, a.current = some r →
       (a.refreshResource).fetchCalls = a.fetchCalls + 1 ∧
       (a.refreshResource).pending = a.pending ++ [r] ∧
       ((a.refreshResource).refreshResource).fetchCalls = a.fetchCalls + 2) := by
  constructor
  · intro h
    simp [App.refreshResource, h]
  · intro r h
    refine ⟨?_, ?_, ?_⟩ <;> simp [App.refreshResource, App.updateStatus, h]

/-- C2 witness: the amended statement evaluated on the concrete in-flight
state. -/
theorem c2_witness :
    (appC2.refreshResource).fetchCalls = appC2.fetchCalls + 1 ∧
    ((appC2.refreshResource).refreshResource).fetchCalls = appC2.fetchCalls + 2 :=
  ⟨((c2_refresh_dispatch appC2).2 0 rfl).1, ((c2_refresh_dispatch appC2).2 0 rfl).2.2⟩

/-- C3 counterexample: resource 0's (A's) stale fetch fails after resource 1
(B) was selected; the completion callback writes A's error text into the
status line of the now-current selection instead of discarding it. -/
theorem c3_stale_result_counterexample :
    appC3.current = some 1 ∧
    (appC3.completeFetch 0 [] (some "boom")).current = some 1 ∧
    (appC3.completeFetch 0 [] (some "boom")).status = " [red]Error: boom" ∧
    (appC3.completeFetch 0 [] (some "boom")).status ≠ appC3.status := by
  refine ⟨rfl, rfl, rfl, by decide⟩

/-- C3 amended: when the stale fetch for A completes while B is selected, B's
row cache is never overwritten and the success path re-renders the table from
B's (the current selection's) cache, so A's rows are not displayed; but the
callback rewrites the status line with no still-current check — on success it
rebuilds it from B's state, and on failure it displays A's error text. -/
theorem c3_stale_result_handling (a : App) (A B : Nat)
    (newCache : List (List String)) (hcur : a.current = some B) (hAB : A ≠ B) :
    (∀ err, (a.completeFetch A newCache err).caches B = a.caches B ∧
            (a.completeFetch A newCache err).current = some B) ∧
    (a.completeFetch A newCache none).table = a.caches B ∧
    (a.completeFetch A newCache none).status = " " ++ a.successStatus B ∧
    (∀ e, (a.completeFetch A newCache (some e)).status = " " ++ ("[red]Error: " ++ e)) := by
  have hBA : B ≠ A := fun hEq => hAB hEq.symm
  refine ⟨?_, ?_, ?_, ?_⟩
  · intro err
    cases err <;>
      simp [App.completeFetch, App.renderTable, App.updateStatus, hcur,
            Function.update_noteq hBA]
  · simp [App.completeFetch, App.renderTable, App.updateStatus, hcur,
          Function.update_noteq hBA]
  · simp [App.completeFetch, App.renderTable, App.updateStatus, App.successStatus,
          hcur, Function.update_noteq hBA]
  · intro e
    simp [App.completeFetch, App.updateStatus]

/-- C3 witness: the amended statement evaluated on the concrete stale-fetch
state (A = 0 completing with fresh rows while B = 1 is selected). -/
theorem c3_witness :
    (appC3.completeFetch 0 [["i-new"]] none).caches 1 = appC3.caches 1 ∧
    (appC3.completeFetch 0 [["i-new"]] none).table = appC3.caches 1 ∧
    (appC3.completeFetch 0 [["i-new"]] none).status = " " ++ appC3.successStatus 1 :=
  ⟨((c3_stale_result_handling appC3 0 1 [["i-new"]] rfl (by decide)).1 none).1,
   (c3_stale_result_handling appC3 0 1 [["i-new"]] rfl (by decide)).2.1,
   (c3_stale_result_handling appC3 0 1 [["i-new"]] rfl (by decide)).2.2.1⟩

/-- C4: selecting an unknown resource key only surfaces the "Unknown
resource" status message — the selection, the dispatched-fetch state and
everything else are left unchanged, and the failure is non-fatal. -/
theorem c4_unknown_resource (a : App) (key : String)
    (h : a.registry.get key = none) :
    a.selectResource key = a.updateStatus ("[red]Unknown resource: " ++ key) ∧
    (a.selectResource key).current = a.current ∧
    (a.selectResource key).fetchCalls = a.fetchCalls ∧
    (a.selectResource key).pending = a.pending ∧
    (a.selectResource key).status = " " ++ ("[red]Unknown resource: " ++ key) := by
  refine ⟨?_, ?_, ?_, ?_, ?_⟩ <;> simp [App.selectResource, h, App.updateStatus]

/-- C4 witness: selecting the unregistered key "nope" on the concrete state
changes neither the selection nor the fetch count, and surfaces the status. -/
theorem c4_witness :
    (app0.selectResource "nope").current = app0.current ∧
    (app0.selectResource "nope").fetchCalls = app0.fetchCalls ∧
    (app0.selectResource "nope").status = " " ++ ("[red]Unknown resource: " ++ "nope") :=
  ⟨(c4_unknown_resource app0 "nope" (by decide)).2.1,
   (c4_unknown_resource app0 "nope" (by decide)).2.2.1,
   (c4_unknown_resource app0 "nope" (by decide)).2.2.2.2⟩

/-- C5: for every cache state of the modelled resource kinds (EC2, Billing,
SQS, S3, Lambda — in particular after any successful fetch), every row
produced by `Rows()` has exactly as many cells as `Columns()` has columns. -/
theorem c5_row_arity :
    (∀ (e : EC2Instances), ∀ row ∈ e.rows, row.length = EC2Instances.columns.length) ∧
    (∀ (b : Billing), ∀ row ∈ b.rows, row.length = Billing.columns.length) ∧
    (∀ (s : SQSQueues), ∀ row ∈ s.rows, row.length = SQSQueues.columns.length) ∧
    (∀ (s3 : S3Buckets), ∀ row ∈ s3.rows, row.length = S3Buckets.columns.length) ∧
    (∀ (l : LambdaFunctions), ∀ row ∈ l.rows, row.length = LambdaFunctions.columns.length) := by
  refine ⟨?_, ?_, ?_, ?_, ?_⟩
  · intro e row hrow
    simp only [EC2Instances.rows, List.mem_map] at hrow
    obtain ⟨inst, -, rfl⟩ := hrow
    rfl
  · intro b row hrow
    simp only [Billing.rows, List.mem_cons, List.mem_map] at hrow
    rcases hrow with rfl | rfl | ⟨entry, -, rfl⟩ <;> rfl
  · intro s row hrow
    simp only [SQSQueues.rows, List.mem_map] at hrow
    obtain ⟨queue, -, rfl⟩ := hrow
    rfl
  · intro s3 row hrow
    simp only [S3Buckets.rows, List.mem_map] at hrow
    obtain ⟨bucket, -, rfl⟩ := hrow
    rfl
  · intro l row hrow
    simp only [LambdaFunctions.rows, List.mem_map] at hrow
    obtain ⟨fn, -, rfl⟩ := hrow
    rfl

/-- C5 witness: the first row of each concrete sample state matches its
schema arity. -/
theorem c5_witness :
    (ec2sample.rows.headD []).length = EC2Instances.columns.length ∧
    (billingSample.rows.headD []).length = Billing.columns.length ∧
    (sqsSample.rows.headD []).length = SQSQueues.columns.length ∧
    (s3sample.rows.headD []).length = S3Buckets.columns.length ∧
    (lambdaSample.rows.headD []).length = LambdaFunctions.columns.length :=
  ⟨c5_row_arity.1 ec2sample (ec2sample.rows.headD []) (by decide),
   c5_row_arity.2.1 billingSample (billingSample.rows.headD []) (by decide),
   c5_row_arity.2.2.1 sqsSample (sqsSample.rows.headD []) (by decide),
   c5_row_arity.2.2.2.1 s3sample (s3sample.rows.headD []) (by decide),
   c5_row_arity.2.2.2.2 lambdaSample (lambdaSample.rows.headD []) (by decide)⟩

/-- C6: a confirmation answered with anything other than the explicit "Yes"
button — another button or dismissal of the dialog — never invokes the EC2
action handler, triggers no refresh, and leaves the controller state exactly
unchanged. -/
theorem c6_declined_confirm (a : App) (action instanceID : String)
    (response : Option String) (h : response ≠ some "Yes") :
    a.confirmDone action instanceID response = a ∧
    (a.confirmDone action instanceID response).actionCalls = a.actionCalls ∧
    (a.confirmDone action instanceID response).fetchCalls = a.fetchCalls := by
  have key : a.confirmDone action instanceID response = a := by
    cases response with
    | none => rfl
    | some label =>
        have hl : ¬label = "Yes" := fun hEq => h (by rw [hEq])
        simp [App.confirmDone, hl]
  exact ⟨key, by rw [key], by rw [key]⟩

/-- C6 witness: declining with the "No" button on the concrete state has no
effect at all. -/
theorem c6_witness :
    app0.confirmDone "stop" "i-1" (some "No") = app0 ∧
    (app0.confirmDone "stop" "i-1" (some "No")).actionCalls = app0.actionCalls ∧
    (app0.confirmDone "stop" "i-1" (some "No")).fetchCalls = app0.fetchCalls :=
  c6_declined_confirm app0 "stop" "i-1" (some "No") (by decide)

/-- C7: the per-row identifier lookup `GetID` is total for the modelled
kinds: any out-of-range integer index (negative or past the end) yields the
empty sentinel "", and any in-range index yields the identifier of exactly
that row — the first cell of the corresponding `Rows()` row. -/
theorem c7_getID_total :
    (∀ (e : EC2Instances) (i : Int),
       ((i < 0 ∨ (e.instances.length : Int) ≤ i) → e.getID i = "") ∧
       (0 ≤ i → i < (e.instances.length : Int) →
          e.getID i = ((e.rows.get? i.toNat).getD []).headD "")) ∧
    (∀ (s : S3Buckets) (i : Int),
       ((i < 0 ∨ (s.buckets.length : Int) ≤ i) → s.getID i = "") ∧
       (0 ≤ i → i < (s.buckets.length : Int) →
          s.getID i = ((s.rows.get? i.toNat).getD []).headD "")) ∧
    (∀ (l : LambdaFunctions) (i : Int),
       ((i < 0 ∨ (l.functions.length : Int) ≤ i) → l.getID i = "") ∧
       (0 ≤ i → i < (l.functions.length : Int) →
          l.getID i = ((l.rows.get? i.toNat).getD []).headD "")) := by
  refine ⟨fun e i => ⟨?_, ?_⟩, fun s i => ⟨?_, ?_⟩, fun l i => ⟨?_, ?_⟩⟩
  · intro h
    have hc : ¬(0 ≤ i ∧ i < (e.instances.length : Int)) := by omega
    simp [EC2Instances.getID, hc]
  · intro h0 hlt
    have hnat : i.toNat < e.instances.length := by omega
    have hget : e.instances[i.toNat]? = some (e.instances.get ⟨i.toNat, hnat⟩) := by
      rw [← List.get?_eq_getElem?]; exact List.get?_eq_get hnat
    simp [EC2Instances.getID, if_pos (⟨h0, hlt⟩ : 0 ≤ i ∧ i < (e.instances.length : Int)),
          hget, EC2Instances.rows, List.getElem?_map]
  · intro h
    have hc : ¬(0 ≤ i ∧ i < (s.buckets.length : Int)) := by omega
    simp [S3Buckets.getID, hc]
  · intro h0 hlt
    have hnat : i.toNat < s.buckets.length := by omega
    have hget : s.buckets[i.toNat]? = some (s.buckets.get ⟨i.toNat, hnat⟩) := by
      rw [← List.get?_eq_getElem?]; exact List.get?_eq_get hnat
    simp [S3Buckets.getID, if_pos (⟨h0, hlt⟩ : 0 ≤ i ∧ i < (s.buckets.length : Int)),
          hget, S3Buckets.rows, List.getElem?_map]
  · intro h
    have hc : ¬(0 ≤ i ∧ i < (l.functions.length : Int)) := by omega
    simp [LambdaFunctions.getID, hc]
  · intro h0 hlt
    have hnat : i.toNat < l.functions.length := by omega
    have hget : l.functions[i.toNat]? = some (l.functions.get ⟨i.toNat, hnat⟩) := by
      rw [← List.get?_eq_getElem?]; exact List.get?_eq_get hnat
    simp [LambdaFunctions.getID, if_pos (⟨h0, hlt⟩ : 0 ≤ i ∧ i < (l.functions.length : Int)),
          hget, LambdaFunctions.rows, List.getElem?_map]

/-- C7 witness: on the concrete EC2 sample, a negative index, an index past
the end, and the single in-range index all behave as stated. -/
theorem c7_witness :
    ec2sample.getID (-1) = "" ∧
    ec2sample.getID 1 = "" ∧
    ec2sample.getID 0 = ((ec2sample.rows.get? 0).getD []).headD "" :=
  ⟨(c7_getID_total.1 ec2sample (-1)).1 (Or.inl (by decide)),
   (c7_getID_total.1 ec2sample 1).1 (Or.inr (by decide)),
   (c7_getID_total.1 ec2sample 0).2 (by decide) (by decide)⟩

/-- C8: a successful region switch makes the client report the new region
while keeping the profile, and dispatches exactly one new fetch when (and
only when) a resource is selected; a failed switch leaves the whole previous
client configuration untouched, dispatches nothing and surfaces the error. -/
theorem c8_switch_region (a : App) (region : String)
    (load : AwsConfig → Except String AwsConfig) :
    (∀ cfg, load (a.client.setRegionOpts region) = .ok cfg →
       (a.switchRegion region load).client.region = region ∧
       (a.switchRegion region load).client.profile = a.client.profile ∧
       (a.current = none → (a.switchRegion region load).fetchCalls = a.fetchCalls) ∧
       (∀ r, a.current = some r →
          (a.switchRegion region load).fetchCalls = a.fetchCalls + 1 ∧
          (a.switchRegion region load).pending = a.pending ++ [r])) ∧
    (∀ e, load (a.client.setRegionOpts region) = .error e →
       (a.switchRegion region load).client = a.client ∧
       (a.switchRegion region load).fetchCalls = a.fetchCalls ∧
       (a.switchRegion region load).pending = a.pending ∧
       (a.switchRegion region load).status =
         " " ++ ("[red]Failed to switch region: " ++ e)) := by
  constructor
  · intro cfg hld
    refine ⟨?_, ?_, fun hcur => ?_, fun r hcur => ?_⟩ <;>
      cases hc : a.current <;>
        simp_all [App.switchRegion, App.updateStatus, Client.setRegion, hld,
                  App.updateHeader, App.refreshResource]
  · intro e hld
    refine ⟨?_, ?_, ?_, ?_⟩ <;>
      simp [App.switchRegion, App.updateStatus, Client.setRegion, hld]

/-- C8 witness: the statement evaluated on the concrete selected state with
an always-succeeding and an always-failing loader. -/
theorem c8_witness :
    (appSel.switchRegion "eu-west-1" loadOkSample).client.region = "eu-west-1" ∧
    (appSel.switchRegion "eu-west-1" loadOkSample).fetchCalls = appSel.fetchCalls + 1 ∧
    (appSel.switchRegion "eu-west-1" loadErrSample).client = appSel.client ∧
    (appSel.switchRegion "eu-west-1" loadErrSample).fetchCalls = appSel.fetchCalls :=
  ⟨((c8_switch_region appSel "eu-west-1" loadOkSample).1 _ rfl).1,
   (((c8_switch_region appSel "eu-west-1" loadOkSample).1 _ rfl).2.2.2 0 rfl).1,
   ((c8_switch_region appSel "eu-west-1" loadErrSample).2 "no credentials" rfl).1,
   ((c8_switch_region appSel "eu-west-1" loadErrSample).2 "no credentials" rfl).2.1⟩

/-- C10: successful reconfiguration is frame-preserving on the orthogonal
field — `SetRegion` installs the new region and rebuilds the config and all
derived per-service clients but leaves the profile unchanged; `SetProfile`
installs the new profile and rebuilds the same but leaves the region
unchanged, passing the existing region into the new configuration load. -/
theorem c10_reconfigure_frame (c : Client) (load : AwsConfig → Except String AwsConfig) :
    (∀ region cfg, load (c.setRegionOpts region) = .ok cfg →
       (c.setRegion region load).1.profile = c.profile ∧
       (c.setRegion region load).1.region = region ∧
       (c.setRegion region load).1.cfg = cfg ∧
       (c.setRegion region load).1.svcCfg = cfg) ∧
    (∀ profile cfg, load (c.setProfileOpts profile) = .ok cfg →
       (c.setProfile profile load).1.region = c.region ∧
       (c.setProfile profile load).1.profile = profile ∧
       (c.setProfile profile load).1.cfg = cfg ∧
       (c.setProfile profile load).1.svcCfg = cfg ∧
       (c.region ≠ "" → (c.setProfileOpts profile).regionOpt = some c.region)) := by
  constructor
  · intro region cfg h
    refine ⟨?_, ?_, ?_, ?_⟩ <;> simp [Client.setRegion, h]
  · intro profile cfg h
    refine ⟨?_, ?_, ?_, ?_, fun hr => ?_⟩
    · simp [Client.setProfile, h]
    · simp [Client.setProfile, h]
    · simp [Client.setProfile, h]
    · simp [Client.setProfile, h]
    · simp [Client.setProfileOpts, hr]

/-- C10 witness: the statement evaluated on the concrete client with an
always-succeeding loader. -/
theorem c10_witness :
    (clientSample.setRegion "eu-west-1" loadOkSample).1.profile = clientSample.profile ∧
    (clientSample.setRegion "eu-west-1" loadOkSample).1.region = "eu-west-1" ∧
    (clientSample.setProfile "prod" loadOkSample).1.region = clientSample.region ∧
    (clientSample.setProfileOpts "prod").regionOpt = some clientSample.region :=
  ⟨((c10_reconfigure_frame clientSample loadOkSample).1 "eu-west-1" _ rfl).1,
   ((c10_reconfigure_frame clientSample loadOkSample).1 "eu-west-1" _ rfl).2.1,
   ((c10_reconfigure_frame clientSample loadOkSample).2 "prod" _ rfl).1,
   ((c10_reconfigure_frame clientSample loadOkSample).2 "prod" _ rfl).2.2.2.2
     (by decide)⟩

/-- The ticker invariant only mentions the ticker fields, so it transports
along any operation that leaves them unchanged. -/
theorem tickerInv_of_fields {a b : App} (hA : b.activeTickers = a.activeTickers)
    (hR : b.refreshTicker = a.refreshTicker) (h : a.tickerInv) : b.tickerInv := by
  unfold App.tickerInv at *
  rw [hA, hR]
  exact h

/-- `updateStatusWithAutoRefresh` changes only the status text. -/
theorem updateStatusWithAutoRefresh_state (a : App) (msg : String) :
    (a.updateStatusWithAutoRefresh msg).activeTickers = a.activeTickers ∧
    (a.updateStatusWithAutoRefresh msg).refreshTicker = a.refreshTicker ∧
    (a.updateStatusWithAutoRefresh msg).current = a.current ∧
    (a.updateStatusWithAutoRefresh msg).autoRefresh = a.autoRefresh ∧
    (a.updateStatusWithAutoRefresh msg).fetchCalls = a.fetchCalls := by
  cases hc : a.current <;> simp [App.updateStatusWithAutoRefresh, App.updateStatus, hc]

/-- `refreshResource` never touches the ticker fields, the selection or the
auto-refresh flag. -/
theorem refreshResource_frame (a : App) :
    (a.refreshResource).activeTickers = a.activeTickers ∧
    (a.refreshResource).refreshTicker = a.refreshTicker ∧
    (a.refreshResource).current = a.current ∧
    (a.refreshResource).autoRefresh = a.autoRefresh := by
  cases hc : a.current <;> simp [App.refreshResource, App.updateStatus, hc]

/-- `completeFetch` never touches the ticker fields. -/
theorem completeFetch_frame (a : App) (task : Nat) (rows : List (List String))
    (err : Option String) :
    (a.completeFetch task rows err).activeTickers = a.activeTickers ∧
    (a.completeFetch task rows err).refreshTicker = a.refreshTicker := by
  cases err <;> cases hc : a.current <;>
    simp [App.completeFetch, App.renderTable, App.updateStatus, hc]

/-- Under the ticker invariant, stopping the existing ticker (the first step
of `startAutoRefresh`) leaves no ticker active; a fresh one is installed only
when the flag is on and a resource is selected. -/
theorem startAutoRefresh_spec (a : App) (h : a.tickerInv) :
    (a.autoRefresh = true → a.current ≠ none →
       (a.startAutoRefresh).activeTickers = [a.nextTicker] ∧
       (a.startAutoRefresh).refreshTicker = some a.nextTicker) ∧
    (a.autoRefresh = false ∨ a.current = none →
       (a.startAutoRefresh).activeTickers = []) ∧
    (a.startAutoRefresh).tickerInv ∧
    (a.startAutoRefresh).current = a.current ∧
    (a.startAutoRefresh).autoRefresh = a.autoRefresh ∧
    (a.startAutoRefresh).fetchCalls = a.fetchCalls := by
  rcases h with hA | ⟨t, hrt, hA⟩
  · cases hrt : a.refreshTicker <;> cases hb : a.autoRefresh <;> cases hc : a.current <;>
      simp [App.startAutoRefresh, App.tickerInv, hrt, hA, hb, hc,
            List.erase_cons_head]
  · cases hb : a.autoRefresh <;> cases hc : a.current <;>
      simp [App.startAutoRefresh, App.tickerInv, hrt, hA, hb, hc,
            List.erase_cons_head]

/-- Under the ticker invariant, `stopAutoRefresh` leaves no ticker active and
clears or preserves the (now inactive) field. -/
theorem stopAutoRefresh_spec (a : App) (h : a.tickerInv) :
    (a.stopAutoRefresh).activeTickers = [] ∧
    (a.stopAutoRefresh).tickerInv ∧
    (a.stopAutoRefresh).current = a.current ∧
    (a.stopAutoRefresh).autoRefresh = a.autoRefresh ∧
    (a.stopAutoRefresh).fetchCalls = a.fetchCalls := by
  have hactive : (a.stopAutoRefresh).activeTickers = [] := by
    rcases h with hA | ⟨t, hrt, hA⟩
    · cases hrt : a.refreshTicker <;> simp [App.stopAutoRefresh, hrt, hA]
    · simp [App.stopAutoRefresh, hrt, hA]
  refine ⟨hactive, Or.inl hactive, ?_, ?_, ?_⟩ <;>
    cases hrt : a.refreshTicker <;> simp [App.stopAutoRefresh, hrt]

/-- Toggling auto-refresh off (from the on state): the flag flips, the ticker
is stopped, nothing else changes. -/
theorem toggleAutoRefresh_off (a : App) (h : a.tickerInv) (hon : a.autoRefresh = true) :
    (a.toggleAutoRefresh).activeTickers = [] ∧
    (a.toggleAutoRefresh).autoRefresh = false ∧
    (a.toggleAutoRefresh).current = a.current ∧
    (a.toggleAutoRefresh).fetchCalls = a.fetchCalls ∧
    (a.toggleAutoRefresh).tickerInv := by
  have hres : a.toggleAutoRefresh =
      ({ a with autoRefresh := !a.autoRefresh }.stopAutoRefresh).updateStatusWithAutoRefresh
        "[yellow]Auto-refresh disabled" := by
    unfold App.toggleAutoRefresh
    rw [hon]
    simp
  have hinv1 : ({ a with autoRefresh := !a.autoRefresh } : App).tickerInv :=
    tickerInv_of_fields rfl rfl h
  obtain ⟨hA, hI, hC, hAu, hF⟩ := stopAutoRefresh_spec { a with autoRefresh := !a.autoRefresh } hinv1
  obtain ⟨uA, uR, uC, uAu, uF⟩ :=
    updateStatusWithAutoRefresh_state
      (({ a with autoRefresh := !a.autoRefresh } : App).stopAutoRefresh)
      "[yellow]Auto-refresh disabled"
  rw [hres]
  refine ⟨by rw [uA, hA], by rw [uAu, hAu]; simp [hon], by rw [uC, hC],
          by rw [uF, hF], tickerInv_of_fields uA uR hI⟩

/-- Toggling auto-refresh on (from the off state): the flag flips and a fresh
ticker is started exactly when a resource is selected. -/
theorem toggleAutoRefresh_on (a : App) (h : a.tickerInv) (hoff : a.autoRefresh = false) :
    (a.toggleAutoRefresh).autoRefresh = true ∧
    (a.toggleAutoRefresh).current = a.current ∧
    (a.toggleAutoRefresh).fetchCalls = a.fetchCalls ∧
    (a.toggleAutoRefresh).tickerInv ∧
    (a.current ≠ none → (a.toggleAutoRefresh).activeTickers.length = 1) ∧
    (a.current = none → (a.toggleAutoRefresh).activeTickers = []) := by
  have hres : a.toggleAutoRefresh =
      ({ a with autoRefresh := !a.autoRefresh }.startAutoRefresh).updateStatusWithAutoRefresh
        "[green]Auto-refresh enabled" := by
    unfold App.toggleAutoRefresh
    rw [hoff]
    simp
  have hinv1 : ({ a with autoRefresh := !a.autoRefresh } : App).tickerInv :=
    tickerInv_of_fields rfl rfl h
  obtain ⟨hOn, hEmpty, hI, hC, hAu, hF⟩ :=
    startAutoRefresh_spec { a with autoRefresh := !a.autoRefresh } hinv1
  obtain ⟨uA, uR, uC, uAu, uF⟩ :=
    updateStatusWithAutoRefresh_state
      (({ a with autoRefresh := !a.autoRefresh } : App).startAutoRefresh)
      "[green]Auto-refresh enabled"
  have hflag : ({ a with autoRefresh := !a.autoRefresh } : App).autoRefresh = true := by
    simp [hoff]
  rw [hres]
  refine ⟨by rw [uAu, hAu]; exact hflag, by rw [uC, hC], by rw [uF, hF],
          tickerInv_of_fields uA uR hI, ?_, ?_⟩
  · intro hcur
    have := (hOn hflag hcur).1
    rw [uA, this]
    rfl
  · intro hcur
    rw [uA, hEmpty (Or.inr hcur)]

/-- `tickFires` never touches the ticker fields (a tick either triggers a
refresh or does nothing). -/
theorem tickFires_frame (a : App) (t : Nat) :
    (a.tickFires t).activeTickers = a.activeTickers ∧
    (a.tickFires t).refreshTicker = a.refreshTicker := by
  unfold App.tickFires
  split
  · split
    · exact ⟨(refreshResource_frame a).1, (refreshResource_frame a).2.1⟩
    · exact ⟨rfl, rfl⟩
  · exact ⟨rfl, rfl⟩

/-- C9: at most one auto-refresh timer is ever active — the ticker invariant
bounds the active timers by one and is preserved by every controller
operation; toggling auto-refresh off deterministically stops the timer (a
tick afterwards is a strict no-op, so no further refresh fires); toggling it
on while a resource is selected starts exactly one fresh timer (stopping any
existing one first); and toggling off then on twice in a row leaves exactly
one active timer. -/
theorem c9_auto_refresh_timer (a : App) (h : a.tickerInv) :
    a.activeTickers.length ≤ 1 ∧
    ((a.startAutoRefresh).tickerInv ∧ (a.stopAutoRefresh).tickerInv ∧
     (a.toggleAutoRefresh).tickerInv ∧ (∀ key, (a.selectResource key).tickerInv) ∧
     (a.refreshResource).tickerInv ∧ (∀ t, (a.tickFires t).tickerInv) ∧
     (∀ task rows err, (a.completeFetch task rows err).tickerInv)) ∧
    (a.autoRefresh = true →
       (a.toggleAutoRefresh).activeTickers = [] ∧
       (∀ t, (a.toggleAutoRefresh).tickFires t = a.toggleAutoRefresh)) ∧
    (a.autoRefresh = false → a.current ≠ none →
       (a.toggleAutoRefresh).activeTickers.length = 1) ∧
    (a.autoRefresh = true → a.current ≠ none →
       (a.toggleAutoRefresh.toggleAutoRefresh.toggleAutoRefresh.toggleAutoRefresh).activeTickers.length = 1) := by
  refine ⟨?_, ⟨?_, ?_, ?_, ?_, ?_, ?_, ?_⟩, ?_, ?_, ?_⟩
  · rcases h with hA | ⟨t, _, hA⟩ <;> simp [hA]
  · exact (startAutoRefresh_spec a h).2.2.1
  · exact (stopAutoRefresh_spec a h).2.1
  · cases hb : a.autoRefresh
    · exact (toggleAutoRefresh_on a h hb).2.2.2.1
    · exact (toggleAutoRefresh_off a h hb).2.2.2.2
  · intro key
    cases hres : a.registry.get key with
    | none =>
        exact tickerInv_of_fields
          (by simp [App.selectResource, hres, App.updateStatus])
          (by simp [App.selectResource, hres, App.updateStatus]) h
    | some res =>
        have h1 : ({ a with current := some res } : App).tickerInv :=
          tickerInv_of_fields rfl rfl h
        have h2 : (({ a with current := some res } : App).refreshResource).tickerInv :=
          tickerInv_of_fields (refreshResource_frame _).1 (refreshResource_frame _).2.1 h1
        have h3 := (startAutoRefresh_spec _ h2).2.2.1
        simpa [App.selectResource, hres] using h3
  · exact tickerInv_of_fields (refreshResource_frame a).1 (refreshResource_frame a).2.1 h
  · intro t
    exact tickerInv_of_fields (tickFires_frame a t).1 (tickFires_frame a t).2 h
  · intro task rows err
    exact tickerInv_of_fields (completeFetch_frame a task rows err).1
      (completeFetch_frame a task rows err).2 h
  · intro hon
    have hA := (toggleAutoRefresh_off a h hon).1
    refine ⟨hA, fun t => ?_⟩
    unfold App.tickFires
    rw [hA]
    simp
  · intro hoff hcur
    exact (toggleAutoRefresh_on a h hoff).2.2.2.2.1 hcur
  · intro hon hcur
    obtain ⟨t1A, t1auto, t1cur, t1F, t1inv⟩ := toggleAutoRefresh_off a h hon
    obtain ⟨t2auto, t2cur, t2F, t2inv, t2len, t2none⟩ :=
      toggleAutoRefresh_on a.toggleAutoRefresh t1inv t1auto
    obtain ⟨t3A, t3auto, t3cur, t3F, t3inv⟩ :=
      toggleAutoRefresh_off a.toggleAutoRefresh.toggleAutoRefresh t2inv t2auto
    obtain ⟨t4auto, t4cur, t4F, t4inv, t4len, t4none⟩ :=
      toggleAutoRefresh_on a.toggleAutoRefresh.toggleAutoRefresh.toggleAutoRefresh t3inv t3auto
    apply t4len
    rw [t3cur, t2cur, t1cur]
    exact hcur

/-- C9 witness: on the concrete selected state, the four-toggle sequence
leaves exactly one active timer, and toggling off leaves none. -/
theorem c9_witness :
    appSel.activeTickers.length ≤ 1 ∧
    (appSel.toggleAutoRefresh).activeTickers = [] ∧
    (appSel.toggleAutoRefresh.toggleAutoRefresh.toggleAutoRefresh.toggleAutoRefresh).activeTickers.length = 1 :=
  ⟨(c9_auto_refresh_timer appSel (Or.inl rfl)).1,
   ((c9_auto_refresh_timer appSel (Or.inl rfl)).2.2.1 rfl).1,
   (c9_auto_refresh_timer appSel (Or.inl rfl)).2.2.2.2 rfl (by decide)⟩

end A9s
